import Mathlib

/-!
# Ownership resolution and caching in `hooks/use-nft.js`

A shallow embedding of the `NFTProvider` hook: its five state cells, the
`checkNFTOwnership` callback with its cache gate, its not-ready guard and its
layered `try`/`catch`/`finally` blocks, and the external collaborators it
calls (the contract handle, `fetch`, the clock).

The collaborators are not part of the repository, so they are parameters of
the model: every call of the hook runs against an `Env` that says what the
contract and the HTTP layer answer.  Each external call is recorded in a
trace, so that "no query is issued" is a statement about the trace.
-/

namespace UseNft

/-! ## Values exchanged with the collaborators -/

/-- The numeric wrapper the contract client returns for a token id.  The
library is external: `value` is the integer held by the wrapper and `fits`
tells whether `toNumber()` returns it (when `fits` is false `toNumber()`
throws). -/
structure BigNumber where
  value : Nat
  fits : Bool
deriving DecidableEq, Repr

/-- The method `tokenId.toNumber()`. -/
def BigNumber.toNumber (b : BigNumber) : Except String Nat :=
  if b.fits then .ok b.value else .error "overflow"

/-- The rendering of a token id inside a template literal. -/
def BigNumber.render (b : BigNumber) : String :=
  toString b.value

/-- One entry of the `attributes` list of a metadata document. -/
structure Trait where
  trait_type : String
  value : String
deriving DecidableEq, Repr

/-- The parsed JSON body of a metadata document; every field is optional. -/
structure Metadata where
  name : Option String
  description : Option String
  image : Option String
  attributes : Option (List Trait)
deriving DecidableEq, Repr

/-- What `fetch` resolves to: the `ok` flag and the outcome of `json()`. -/
structure Response where
  ok : Bool
  json : Except String Metadata

/-- The handle `contracts.originNFT` with the two queries the hook uses. -/
structure OriginNFT where
  addressToTokenId : String → Except String BigNumber
  tokenURI : BigNumber → Except String String

/-- Everything a call of the hook reads from outside its own state: the
contract handle and the wallet address of the current render, the HTTP layer,
`Date.now()` and `new Date().toLocaleDateString()`. -/
structure Env where
  originNFT : Option OriginNFT
  walletAddress : Option String
  fetch : String → Except String Response
  now : Int
  today : String

/-! ## State of the provider -/

/-- The record stored in `userNFT`.  A property that the object literal does
not set reads as `undefined` in the source and is `none` here. -/
structure NFT where
  id : Nat
  name : String
  description : Option String
  image : Option String
  traits : Option (List Trait)
  mintedAt : Option String
  owner : String
deriving DecidableEq, Repr

/-- The five `useState` cells of `NFTProvider`. -/
structure NFTState where
  userNFT : Option NFT
  hasNFT : Bool
  isMinting : Bool
  isLoading : Bool
  lastCheck : Int
deriving DecidableEq, Repr

/-- The state at mount (lines 13-19). -/
def NFTState.initial : NFTState :=
  { userNFT := none, hasNFT := false, isMinting := false, isLoading := true, lastCheck := 0 }

/-- An external call issued by the hook. -/
inductive Event where
  | addressToTokenId (wallet : String)
  | tokenURI (tokenId : BigNumber)
  | fetch (url : String)
deriving DecidableEq, Repr

/-- The provider state together with the external calls issued so far. -/
structure Run where
  state : NFTState
  calls : List Event
deriving DecidableEq, Repr

/-! ## Blocks of asynchronous code -/

/-- A block of hook code.  It runs on a `Run`, always hands back the updated
`Run` (state writes made before a `throw` are kept) and either completes with
a value or throws. -/
def Hook (α : Type) : Type := Run → Except String α × Run

/-- Run a block. -/
def Hook.run {α : Type} (m : Hook α) (r : Run) : Except String α × Run := m r

/-- Sequencing: the second block runs only when the first one completes. -/
def Hook.bind {α β : Type} (m : Hook α) (f : α → Hook β) : Hook β := fun r =>
  match m r with
  | (.ok a, r1) => f a r1
  | (.error e, r1) => (.error e, r1)

instance : Monad Hook where
  pure a := fun r => (.ok a, r)
  bind := Hook.bind

/-- The handler of a `catch` runs when the protected block throws. -/
def Hook.tryCatch {α : Type} (m : Hook α) (h : String → Hook α) : Hook α := fun r =>
  match m r with
  | (.ok a, r1) => (.ok a, r1)
  | (.error e, r1) => h e r1

instance : MonadExcept String Hook where
  throw e := fun r => (.error e, r)
  tryCatch := Hook.tryCatch

/-- The `finally` block runs on both outcomes; when it throws its error
replaces the outcome of the protected block. -/
def Hook.tryFinally {α β : Type} (m : Hook α) (f : Option α → Hook β) : Hook (α × β) := fun r =>
  match m r with
  | (.ok a, r1) =>
    match f (some a) r1 with
    | (.ok b, r2) => (.ok (a, b), r2)
    | (.error e, r2) => (.error e, r2)
  | (.error e, r1) =>
    match f none r1 with
    | (.ok _, r2) => (.error e, r2)
    | (.error e2, r2) => (.error e2, r2)

instance : MonadFinally Hook where
  tryFinally' := Hook.tryFinally

/-- The setter `setUserNFT`. -/
def setUserNFT (v : Option NFT) : Hook Unit := fun r =>
  (.ok (), { r with state := { r.state with userNFT := v } })

/-- The setter `setHasNFT`. -/
def setHasNFT (v : Bool) : Hook Unit := fun r =>
  (.ok (), { r with state := { r.state with hasNFT := v } })

/-- The setter `setIsMinting`. -/
def setIsMinting (v : Bool) : Hook Unit := fun r =>
  (.ok (), { r with state := { r.state with isMinting := v } })

/-- The setter `setIsLoading`. -/
def setIsLoading (v : Bool) : Hook Unit := fun r =>
  (.ok (), { r with state := { r.state with isLoading := v } })

/-- The setter `setLastCheck`. -/
def setLastCheck (v : Int) : Hook Unit := fun r =>
  (.ok (), { r with state := { r.state with lastCheck := v } })

/-- The value of `lastCheck` seen by the callback. -/
def readLastCheck : Hook Int := fun r => (.ok r.state.lastCheck, r)

/-- Record an external call in the trace. -/
def emit (e : Event) : Hook Unit := fun r =>
  (.ok (), { r with calls := r.calls ++ [e] })

/-- Turn the outcome of an external call or of a throwing method into a
completion of the block. -/
def await {α : Type} (x : Except String α) : Hook α := fun r => (x, r)

/-! ## String helpers -/

/-- Replace the first occurrence of `pat` in a list of characters. -/
def replaceFirstIn (pat rep : List Char) : List Char → List Char
  | [] => if pat.isEmpty then rep else []
  | c :: cs =>
    if pat.isPrefixOf (c :: cs) then rep ++ (c :: cs).drop pat.length
    else c :: replaceFirstIn pat rep cs

/-- The method `String.prototype.replace` with a string pattern: only the
first occurrence is replaced, wherever it stands.  (The replacement strings of
the hook contain no `$` pattern.) -/
def jsReplace (s pat rep : String) : String :=
  ⟨replaceFirstIn pat.data rep.data s.data⟩

/-- The rewrite of lines 62 and 70. -/
def toGateway (uri : String) : String :=
  jsReplace uri "ipfs://" "https://gateway.pinata.cloud/ipfs/"

/-- Truthiness of a string. -/
def truthy (s : String) : Bool := s != ""

/-- Truthiness of a value that is a string, `null` or `undefined`. -/
def truthyOpt : Option String → Bool
  | none => false
  | some s => truthy s

/-! ## The callback `checkNFTOwnership` -/

/-- The constant `CACHE_DURATION` (line 20). -/
def CACHE_DURATION : Int := 30000

/-- The condition of line 26:
`!forceRefresh && lastCheck && (now - lastCheck) < CACHE_DURATION`. -/
def cacheGate (forceRefresh : Bool) (lastCheck now : Int) : Bool :=
  !forceRefresh && lastCheck != 0 && decide (now - lastCheck < CACHE_DURATION)

/-- The fallback name of lines 68 and 82. -/
def defaultName (tokenId : BigNumber) : String :=
  "Origin NFT #" ++ tokenId.render

/-- The callback of lines 23-99. -/
def checkNFTOwnership (env : Env) (forceRefresh : Bool) : Hook Unit := do
  -- Skip if recently checked and not forcing refresh
  let now := env.now
  let lastCheck ← readLastCheck
  if cacheGate forceRefresh lastCheck now then
    return
  let some originNFT := env.originNFT
    | do setHasNFT false; setUserNFT none; setIsLoading false; return
  let some walletAddress := env.walletAddress
    | do setHasNFT false; setUserNFT none; setIsLoading false; return
  if !truthy walletAddress then
    setHasNFT false
    setUserNFT none
    setIsLoading false
    return
  setIsLoading true
  try
    let mut tokenId : BigNumber := ⟨0, true⟩
    try
      emit (.addressToTokenId walletAddress)
      tokenId ← await (originNFT.addressToTokenId walletAddress)
    catch _ =>
      setHasNFT false
      setUserNFT none
      setIsLoading false
      return
    let hasNFT := decide ((← await tokenId.toNumber) > 0)
    setHasNFT hasNFT
    setLastCheck now
    if hasNFT then
      try
        emit (.tokenURI tokenId)
        let tokenURI ← await (originNFT.tokenURI tokenId)
        if truthy tokenURI then
          let metadataUrl := toGateway tokenURI
          emit (.fetch metadataUrl)
          let response ← await (env.fetch metadataUrl)
          if response.ok then
            let metadata ← await response.json
            setUserNFT (some {
              id := (← await tokenId.toNumber)
              name := if truthyOpt metadata.name then metadata.name.getD "" else defaultName tokenId
              description := metadata.description
              image := metadata.image.map toGateway
              traits := some (metadata.attributes.getD [])
              mintedAt := some env.today
              owner := walletAddress })
      catch _ =>
        setUserNFT (some {
          id := (← await tokenId.toNumber)
          name := defaultName tokenId
          description := some "IOPn Origin NFT"
          image := some "/placeholder.svg"
          traits := none
          mintedAt := none
          owner := walletAddress })
    else
      setUserNFT none
  catch _ =>
    setHasNFT false
    setUserNFT none
  finally
    setIsLoading false

/-- The state and the trace after a call of `checkNFTOwnership` made in state
`s`, together with its completion. -/
def check (env : Env) (forceRefresh : Bool) (s : NFTState) : Except String Unit × Run :=
  (checkNFTOwnership env forceRefresh).run ⟨s, []⟩

/-- The function `mintNFT` of lines 106-122.  It closes over the callback
`checkNFTOwnership` of the current render, which is its first argument here;
the payload is not inspected. -/
def mintNFT {P : Type} (checkNFTOwnership : Bool → Hook Unit) (_nftData : P) : Hook Unit := do
  setIsMinting true
  try
    -- After successful mint, force refresh
    checkNFTOwnership true
  catch error =>
    throw error
  finally
    setIsMinting false

/-- The function `updateNFT` of lines 124-127; the payload is not inspected. -/
def updateNFT {P : Type} (env : Env) (_updates : P) : Hook Unit := do
  checkNFTOwnership env true

/-- The call reaches the `addressToTokenId` query of line 42: the gate of
line 26 does not return, and the guard of line 30 finds the contract handle
`c` and the non-empty wallet address `w`. -/
structure Proceeds (env : Env) (forceRefresh : Bool) (s : NFTState)
    (c : OriginNFT) (w : String) : Prop where
  contract : env.originNFT = some c
  wallet : env.walletAddress = some w
  nonempty : w ≠ ""
  gate : cacheGate forceRefresh s.lastCheck env.now = false

/-- The gate as the specification words it, over a cache that remembers the
wallet it was recorded for: skip exactly when the call is not forced, the
recorded wallet is the wallet under evaluation and the entry is younger than
30000 ms. -/
def specShouldSkip (forWallet : String) (lastCheckedAt : Int) (wallet : String)
    (forceRefresh : Bool) (now : Int) : Bool :=
  !forceRefresh && forWallet == wallet && decide (now - lastCheckedAt < 30000)

/-- The record of lines 80-86 for a token id whose number is `n`. -/
def basicRecord (n : Nat) (w : String) : NFT :=
  { id := n
    name := "Origin NFT #" ++ toString n
    description := some "IOPn Origin NFT"
    image := some "/placeholder.svg"
    traits := none
    mintedAt := none
    owner := w }

/-- The handler of lines 77-87 runs: `tokenURI` throws, or it returns a
non-empty URI and `fetch` throws, or the response is `ok` and `json()` throws. -/
def MetadataThrows (env : Env) (c : OriginNFT) (tok : BigNumber) : Prop :=
  (∃ e, c.tokenURI tok = .error e) ∨
  (∃ uri, c.tokenURI tok = .ok uri ∧ uri ≠ "" ∧
    ((∃ e, env.fetch (toGateway uri) = .error e) ∨
     (∃ resp e, env.fetch (toGateway uri) = .ok resp ∧ resp.ok = true ∧ resp.json = .error e)))

/-! ## Sample collaborators -/

/-- A contract handle that answers every query the same way. -/
def constContract (tokenId : Except String BigNumber) (uri : Except String String) : OriginNFT :=
  { addressToTokenId := fun _ => tokenId, tokenURI := fun _ => uri }

/-- An environment whose HTTP layer answers every request the same way. -/
def constEnv (c : Option OriginNFT) (w : Option String) (resp : Except String Response)
    (now : Int) : Env :=
  { originNFT := c, walletAddress := w, fetch := fun _ => resp, now := now, today := "1/1/2025" }

/-- The metadata document `{"name":"Cool #7","attributes":[{"trait_type":"Color","value":"Blue"}]}`. -/
def coolSeven : Metadata :=
  { name := some "Cool #7", description := none, image := none,
    attributes := some [{ trait_type := "Color", value := "Blue" }] }

/-- A deployed contract on which wallet `0xA` holds token 7, stored at
`ipfs://abc`, and every other wallet holds no token. -/
def sampleContract : OriginNFT :=
  { addressToTokenId := fun w => if w = "0xA" then .ok ⟨7, true⟩ else .ok ⟨0, true⟩
    tokenURI := fun _ => .ok "ipfs://abc" }

/-- Wallet `w` at time `now`, with `sampleContract` and a gateway serving `coolSeven`. -/
def sampleEnv (w : Option String) (now : Int) : Env :=
  constEnv (some sampleContract) w (.ok { ok := true, json := .ok coolSeven }) now

/-- The state left by the first check at mount, for wallet `0xA` at time 1000. -/
def afterA : NFTState :=
  (check (sampleEnv (some "0xA") 1000) false NFTState.initial).2.state

/-- A contract on which every wallet holds token 9, stored at `ipfs://def`. -/
def nineContract : OriginNFT :=
  constContract (.ok ⟨9, true⟩) (.ok "ipfs://def")

/-! ## The exposed operations as a transition system -/

/-- The state, the trace and the completion of a call of `mintNFT` made in
state `s`, with the callback `checkNFTOwnership` of the provider. -/
def mint {P : Type} (env : Env) (nftData : P) (s : NFTState) : Except String Unit × Run :=
  (mintNFT (checkNFTOwnership env) nftData).run ⟨s, []⟩

/-- The state, the trace and the completion of a call of `updateNFT` made in
state `s`. -/
def update {P : Type} (env : Env) (updates : P) (s : NFTState) : Except String Unit × Run :=
  (updateNFT env updates).run ⟨s, []⟩

/-- A call of one of the three operations of the context value (lines 129-137),
with a payload of type `P`. -/
inductive Call (P : Type) where
  | check (forceRefresh : Bool)
  | mint (nftData : P)
  | update (updates : P)

/-- The state after one call made in state `s` against `env`. -/
def step {P : Type} (s : NFTState) (env : Env) : Call P → NFTState
  | .check forceRefresh => (check env forceRefresh s).2.state
  | .mint nftData => (mint env nftData s).2.state
  | .update updates => (update env updates s).2.state

/-- The state after a sequence of calls, each one made against its own
environment once the one before has returned. -/
def runCalls {P : Type} (s : NFTState) : List (Env × Call P) → NFTState
  | [] => s
  | (env, c) :: rest => runCalls (step s env c) rest

/-! ## Running blocks -/

section HookLemmas
variable {α β : Type}

@[simp] theorem run_pure (a : α) (r : Run) : (pure a : Hook α).run r = (.ok a, r) := rfl

@[simp] theorem run_throw (e : String) (r : Run) : (throw e : Hook α).run r = (.error e, r) := rfl

@[simp] theorem run_bind (m : Hook α) (f : α → Hook β) (r : Run) :
    (m >>= f).run r =
      match m.run r with
      | (.ok a, r1) => (f a).run r1
      | (.error e, r1) => (.error e, r1) := rfl

@[simp] theorem run_map (f : α → β) (m : Hook α) (r : Run) :
    (f <$> m).run r =
      match m.run r with
      | (.ok a, r1) => (.ok (f a), r1)
      | (.error e, r1) => (.error e, r1) := rfl

@[simp] theorem run_tryCatch (m : Hook α) (h : String → Hook α) (r : Run) :
    (tryCatch m h).run r =
      match m.run r with
      | (.ok a, r1) => (.ok a, r1)
      | (.error e, r1) => (h e).run r1 := rfl

@[simp] theorem run_tryFinally (m : Hook α) (f : Hook β) (r : Run) :
    (tryFinally m f).run r =
      match m.run r with
      | (.ok a, r1) =>
        match f.run r1 with
        | (.ok _, r2) => (.ok a, r2)
        | (.error e, r2) => (.error e, r2)
      | (.error e, r1) =>
        match f.run r1 with
        | (.ok _, r2) => (.error e, r2)
        | (.error e2, r2) => (.error e2, r2) := by
  show Hook.run (Prod.fst <$> Hook.tryFinally m (fun _ => f)) r = _
  rw [run_map]
  simp only [Hook.run, Hook.tryFinally]
  rcases m r with ⟨_ | _, r1⟩ <;> simp only <;> rcases f r1 with ⟨_ | _, r2⟩ <;> rfl

@[simp] theorem run_ite (c : Prop) [Decidable c] (m1 m2 : Hook α) (r : Run) :
    (if c then m1 else m2).run r = if c then m1.run r else m2.run r := by
  split <;> rfl

@[simp] theorem run_setUserNFT (v : Option NFT) (r : Run) :
    (setUserNFT v).run r = (.ok (), { r with state := { r.state with userNFT := v } }) := rfl

@[simp] theorem run_setHasNFT (v : Bool) (r : Run) :
    (setHasNFT v).run r = (.ok (), { r with state := { r.state with hasNFT := v } }) := rfl

@[simp] theorem run_setIsMinting (v : Bool) (r : Run) :
    (setIsMinting v).run r = (.ok (), { r with state := { r.state with isMinting := v } }) := rfl

@[simp] theorem run_setIsLoading (v : Bool) (r : Run) :
    (setIsLoading v).run r = (.ok (), { r with state := { r.state with isLoading := v } }) := rfl

@[simp] theorem run_setLastCheck (v : Int) (r : Run) :
    (setLastCheck v).run r = (.ok (), { r with state := { r.state with lastCheck := v } }) := rfl

@[simp] theorem run_readLastCheck (r : Run) :
    readLastCheck.run r = (.ok r.state.lastCheck, r) := rfl

@[simp] theorem run_emit (e : Event) (r : Run) :
    (emit e).run r = (.ok (), { r with calls := r.calls ++ [e] }) := rfl

@[simp] theorem run_await (x : Except String α) (r : Run) :
    (await x).run r = (x, r) := rfl

end HookLemmas

/-! ## The paths through `checkNFTOwnership` -/

theorem toNumber_ok {tok : BigNumber} {n : Nat} (h : tok.toNumber = .ok n) :
    tok.fits = true ∧ tok.value = n := by
  unfold BigNumber.toNumber at h
  split at h
  · exact ⟨by assumption, by injection h⟩
  · cases h

theorem defaultName_of_toNumber {tok : BigNumber} {n : Nat} (h : tok.toNumber = .ok n) :
    defaultName tok = "Origin NFT #" ++ toString n := by
  simp [defaultName, BigNumber.render, (toNumber_ok h).2]

/-- Line 27: the gate returns before anything is written or queried. -/
theorem check_skip (env : Env) (force : Bool) (s : NFTState)
    (hgate : cacheGate force s.lastCheck env.now = true) :
    check env force s = (.ok (), ⟨s, []⟩) := by
  simp [check, checkNFTOwnership, hgate]

/-- Lines 30-35: the guard commits the not-ready state without any query. -/
theorem check_notReady (env : Env) (force : Bool) (s : NFTState)
    (hgate : cacheGate force s.lastCheck env.now = false)
    (habs : env.originNFT = none ∨ truthyOpt env.walletAddress = false) :
    check env force s =
      (.ok (), ⟨{ s with hasNFT := false, userNFT := none, isLoading := false }, []⟩) := by
  rcases ho : env.originNFT with _ | c <;> rcases hw : env.walletAddress with _ | w <;>
    simp [check, checkNFTOwnership, hgate, ho, hw]
  rcases habs with h | h
  · simp [ho] at h
  · simp [hw, truthyOpt] at h
    simp [h]

/-- Lines 43-50: the query throws. -/
theorem check_queryFails {env : Env} {force : Bool} {s : NFTState} {c : OriginNFT} {w : String}
    (hp : Proceeds env force s c w) {e : String} (hq : c.addressToTokenId w = .error e) :
    check env force s =
      (.ok (), ⟨{ s with hasNFT := false, userNFT := none, isLoading := false },
        [.addressToTokenId w]⟩) := by
  simp [check, checkNFTOwnership, hp.contract, hp.wallet, hp.gate, hq, truthy, hp.nonempty]

/-- Line 52 throws on `toNumber()`: the outer handler of lines 91-95 runs. -/
theorem check_toNumberFails {env : Env} {force : Bool} {s : NFTState} {c : OriginNFT} {w : String}
    (hp : Proceeds env force s c w) {tok : BigNumber} (hq : c.addressToTokenId w = .ok tok)
    {e : String} (hn : tok.toNumber = .error e) :
    check env force s =
      (.ok (), ⟨{ s with hasNFT := false, userNFT := none, isLoading := false },
        [.addressToTokenId w]⟩) := by
  simp [check, checkNFTOwnership, hp.contract, hp.wallet, hp.gate, hq, hn, truthy, hp.nonempty]

/-- Lines 88-90: the token id is zero. -/
theorem check_notOwned {env : Env} {force : Bool} {s : NFTState} {c : OriginNFT} {w : String}
    (hp : Proceeds env force s c w) {tok : BigNumber} (hq : c.addressToTokenId w = .ok tok)
    (hn : tok.toNumber = .ok 0) :
    check env force s =
      (.ok (),
        ⟨{ s with hasNFT := false, lastCheck := env.now, userNFT := none, isLoading := false },
          [.addressToTokenId w]⟩) := by
  simp [check, checkNFTOwnership, hp.contract, hp.wallet, hp.gate, hq, hn, truthy, hp.nonempty]

/-- Lines 77-87 after a throwing `tokenURI`. -/
theorem check_uriFails {env : Env} {force : Bool} {s : NFTState} {c : OriginNFT} {w : String}
    (hp : Proceeds env force s c w) {tok : BigNumber} (hq : c.addressToTokenId w = .ok tok)
    {n : Nat} (hn : tok.toNumber = .ok n) (hpos : 0 < n)
    {e : String} (hu : c.tokenURI tok = .error e) :
    check env force s =
      (.ok (),
        ⟨{ s with
            hasNFT := true
            lastCheck := env.now
            userNFT := some (basicRecord n w)
            isLoading := false },
        [.addressToTokenId w, .tokenURI tok]⟩) := by
  simp [check, checkNFTOwnership, hp.contract, hp.wallet, hp.gate, hq, hn, truthy, hp.nonempty,
    hpos, hu, basicRecord, defaultName_of_toNumber hn]

/-- Line 61 with an empty URI: nothing is fetched and `userNFT` is not written. -/
theorem check_uriEmpty {env : Env} {force : Bool} {s : NFTState} {c : OriginNFT} {w : String}
    (hp : Proceeds env force s c w) {tok : BigNumber} (hq : c.addressToTokenId w = .ok tok)
    {n : Nat} (hn : tok.toNumber = .ok n) (hpos : 0 < n)
    (hu : c.tokenURI tok = .ok "") :
    check env force s =
      (.ok (), ⟨{ s with hasNFT := true, lastCheck := env.now, isLoading := false },
        [.addressToTokenId w, .tokenURI tok]⟩) := by
  simp [check, checkNFTOwnership, hp.contract, hp.wallet, hp.gate, hq, hn, truthy, hp.nonempty,
    hpos, hu]

/-- Lines 77-87 after a throwing `fetch`. -/
theorem check_fetchFails {env : Env} {force : Bool} {s : NFTState} {c : OriginNFT} {w : String}
    (hp : Proceeds env force s c w) {tok : BigNumber} (hq : c.addressToTokenId w = .ok tok)
    {n : Nat} (hn : tok.toNumber = .ok n) (hpos : 0 < n)
    {uri : String} (hu : c.tokenURI tok = .ok uri) (hne : uri ≠ "")
    {e : String} (hf : env.fetch (toGateway uri) = .error e) :
    check env force s =
      (.ok (),
        ⟨{ s with
            hasNFT := true
            lastCheck := env.now
            userNFT := some (basicRecord n w)
            isLoading := false },
        [.addressToTokenId w, .tokenURI tok, .fetch (toGateway uri)]⟩) := by
  simp [check, checkNFTOwnership, hp.contract, hp.wallet, hp.gate, hq, hn, truthy, hp.nonempty,
    hpos, hu, hne, hf, basicRecord, defaultName_of_toNumber hn]

/-- Line 64 with a response that is not `ok`: `userNFT` is not written. -/
theorem check_notOk {env : Env} {force : Bool} {s : NFTState} {c : OriginNFT} {w : String}
    (hp : Proceeds env force s c w) {tok : BigNumber} (hq : c.addressToTokenId w = .ok tok)
    {n : Nat} (hn : tok.toNumber = .ok n) (hpos : 0 < n)
    {uri : String} (hu : c.tokenURI tok = .ok uri) (hne : uri ≠ "")
    {resp : Response} (hf : env.fetch (toGateway uri) = .ok resp) (hok : resp.ok = false) :
    check env force s =
      (.ok (), ⟨{ s with hasNFT := true, lastCheck := env.now, isLoading := false },
        [.addressToTokenId w, .tokenURI tok, .fetch (toGateway uri)]⟩) := by
  simp [check, checkNFTOwnership, hp.contract, hp.wallet, hp.gate, hq, hn, truthy, hp.nonempty,
    hpos, hu, hne, hf, hok]

/-- Lines 77-87 after a throwing `response.json()`. -/
theorem check_jsonFails {env : Env} {force : Bool} {s : NFTState} {c : OriginNFT} {w : String}
    (hp : Proceeds env force s c w) {tok : BigNumber} (hq : c.addressToTokenId w = .ok tok)
    {n : Nat} (hn : tok.toNumber = .ok n) (hpos : 0 < n)
    {uri : String} (hu : c.tokenURI tok = .ok uri) (hne : uri ≠ "")
    {resp : Response} (hf : env.fetch (toGateway uri) = .ok resp) (hok : resp.ok = true)
    {e : String} (hj : resp.json = .error e) :
    check env force s =
      (.ok (),
        ⟨{ s with
            hasNFT := true
            lastCheck := env.now
            userNFT := some (basicRecord n w)
            isLoading := false },
        [.addressToTokenId w, .tokenURI tok, .fetch (toGateway uri)]⟩) := by
  simp [check, checkNFTOwnership, hp.contract, hp.wallet, hp.gate, hq, hn, truthy, hp.nonempty,
    hpos, hu, hne, hf, hok, hj, basicRecord, defaultName_of_toNumber hn]

/-- Lines 66-74: the metadata document was fetched and parsed. -/
theorem check_fetched {env : Env} {force : Bool} {s : NFTState} {c : OriginNFT} {w : String}
    (hp : Proceeds env force s c w) {tok : BigNumber} (hq : c.addressToTokenId w = .ok tok)
    {n : Nat} (hn : tok.toNumber = .ok n) (hpos : 0 < n)
    {uri : String} (hu : c.tokenURI tok = .ok uri) (hne : uri ≠ "")
    {resp : Response} (hf : env.fetch (toGateway uri) = .ok resp) (hok : resp.ok = true)
    {m : Metadata} (hj : resp.json = .ok m) :
    check env force s =
      (.ok (), ⟨{ s with
          hasNFT := true
          lastCheck := env.now
          userNFT := some
            { id := n
              name := if truthyOpt m.name then m.name.getD "" else "Origin NFT #" ++ toString n
              description := m.description
              image := m.image.map toGateway
              traits := some (m.attributes.getD [])
              mintedAt := some env.today
              owner := w }
          isLoading := false },
        [.addressToTokenId w, .tokenURI tok, .fetch (toGateway uri)]⟩) := by
  simp [check, checkNFTOwnership, hp.contract, hp.wallet, hp.gate, hq, hn, truthy, hp.nonempty,
    hpos, hu, hne, hf, hok, hj, defaultName_of_toNumber hn]

/-- On every path on which the token id is positive, the call returns normally,
commits `hasNFT = true` and the cache timestamp, clears `isLoading` and has
issued the two contract queries first. -/
theorem check_owned {env : Env} {force : Bool} {s : NFTState} {c : OriginNFT} {w : String}
    (hp : Proceeds env force s c w) {tok : BigNumber} (hq : c.addressToTokenId w = .ok tok)
    {n : Nat} (hn : tok.toNumber = .ok n) (hpos : 0 < n) :
    ∃ u rest, check env force s =
      (.ok (),
        ⟨{ s with hasNFT := true, lastCheck := env.now, userNFT := u, isLoading := false },
          .addressToTokenId w :: .tokenURI tok :: rest⟩) := by
  rcases hu : c.tokenURI tok with e | uri
  · exact ⟨_, _, check_uriFails hp hq hn hpos hu⟩
  · by_cases hne : uri = ""
    · subst hne
      exact ⟨_, _, check_uriEmpty hp hq hn hpos hu⟩
    · rcases hf : env.fetch (toGateway uri) with e | resp
      · exact ⟨_, _, check_fetchFails hp hq hn hpos hu hne hf⟩
      · rcases hok : resp.ok with _ | _
        · exact ⟨_, _, check_notOk hp hq hn hpos hu hne hf hok⟩
        · rcases hj : resp.json with e | m
          · exact ⟨_, _, check_jsonFails hp hq hn hpos hu hne hf hok hj⟩
          · exact ⟨_, _, check_fetched hp hq hn hpos hu hne hf hok hj⟩

/-- A call that proceeds past the gate and the guard issues the
`addressToTokenId` query for the wallet, before anything else. -/
theorem check_proceeds_calls {env : Env} {force : Bool} {s : NFTState} {c : OriginNFT}
    {w : String} (hp : Proceeds env force s c w) :
    ∃ rest, (check env force s).2.calls = .addressToTokenId w :: rest := by
  rcases hq : c.addressToTokenId w with e | tok
  · exact ⟨[], by rw [check_queryFails hp hq]⟩
  · rcases hn : tok.toNumber with e | n
    · exact ⟨[], by rw [check_toNumberFails hp hq hn]⟩
    · rcases Nat.eq_zero_or_pos n with h0 | hpos
      · subst h0
        exact ⟨[], by rw [check_notOwned hp hq hn]⟩
      · obtain ⟨u, rest, h⟩ := check_owned hp hq hn hpos
        exact ⟨_, by rw [h]⟩

/-- After a query that succeeded with a convertible token id the cache
timestamp is the time of the call. -/
theorem check_lastCheck {env : Env} {force : Bool} {s : NFTState} {c : OriginNFT} {w : String}
    (hp : Proceeds env force s c w) {tok : BigNumber} (hq : c.addressToTokenId w = .ok tok)
    {n : Nat} (hn : tok.toNumber = .ok n) :
    (check env force s).2.state.lastCheck = env.now := by
  rcases Nat.eq_zero_or_pos n with h0 | hpos
  · subst h0
    rw [check_notOwned hp hq hn]
  · obtain ⟨u, rest, h⟩ := check_owned hp hq hn hpos
    rw [h]

theorem cacheGate_eq_true_iff (force : Bool) (lastCheck now : Int) :
    cacheGate force lastCheck now = true ↔
      force = false ∧ lastCheck ≠ 0 ∧ now - lastCheck < 30000 := by
  simp [cacheGate, CACHE_DURATION, and_assoc]

theorem cacheGate_force (lastCheck now : Int) : cacheGate true lastCheck now = false := by
  simp [cacheGate]

/-! ## Properties of the specification -/

/-- C1: for every state, contract handle and wallet that are both present, when
the call reaches the `addressToTokenId` query and the query fails, the call
returns with `hasNFT = false`, `userNFT = null` and `isLoading = false`. -/
theorem query_failure_commits_not_owned (env : Env) (force : Bool) (s : NFTState)
    (c : OriginNFT) (w e : String) (hp : Proceeds env force s c w)
    (hq : c.addressToTokenId w = .error e) :
    (check env force s).1 = .ok () ∧
    (check env force s).2.state.hasNFT = false ∧
    (check env force s).2.state.userNFT = none ∧
    (check env force s).2.state.isLoading = false := by
  rw [check_queryFails hp hq]
  exact ⟨rfl, rfl, rfl, rfl⟩

/-- Witness of C1: wallet `0xA` held a record, the cache is 49 s old and the
contract call now reverts. -/
theorem query_failure_commits_not_owned_witness :
    afterA.hasNFT = true ∧
    (check (constEnv (some (constContract (.error "revert") (.ok ""))) (some "0xA")
        (.error "offline") 50000) false afterA).2.state.hasNFT = false ∧
    (check (constEnv (some (constContract (.error "revert") (.ok ""))) (some "0xA")
        (.error "offline") 50000) false afterA).2.state.userNFT = none ∧
    (check (constEnv (some (constContract (.error "revert") (.ok ""))) (some "0xA")
        (.error "offline") 50000) false afterA).2.state.isLoading = false :=
  ⟨by decide,
    (query_failure_commits_not_owned
      (constEnv (some (constContract (.error "revert") (.ok ""))) (some "0xA")
        (.error "offline") 50000)
      false afterA (constContract (.error "revert") (.ok "")) "0xA" "revert"
      ⟨rfl, rfl, by decide, by decide⟩ rfl).2⟩

/-- C2, counterexample: `addressToTokenId` succeeds for wallet `0xA` with the
positive token id 2^53, which `toNumber()` does not convert.  Line 52 throws,
the handler of lines 91-95 runs and the committed flag is `hasNFT = false`. -/
theorem ownership_flag_unconvertible_id :
    (0 : Nat) < 2 ^ 53 ∧
    (constContract (.ok ⟨2 ^ 53, false⟩) (.ok "ipfs://abc")).addressToTokenId "0xA"
      = .ok ⟨2 ^ 53, false⟩ ∧
    (check (constEnv (some (constContract (.ok ⟨2 ^ 53, false⟩) (.ok "ipfs://abc")))
        (some "0xA") (.error "offline") 1000) false NFTState.initial).2.state.hasNFT = false ∧
    (check (constEnv (some (constContract (.ok ⟨2 ^ 53, false⟩) (.ok "ipfs://abc")))
        (some "0xA") (.error "offline") 1000) false NFTState.initial).2.calls
      = [.addressToTokenId "0xA"] := by
  refine ⟨by decide, rfl, by decide, by decide⟩

/-- C2, amended: when `addressToTokenId` succeeds with a token id whose
`toNumber()` returns `n`, the committed ownership flag is `hasNFT = (n > 0)`:
`n = 0` gives `false` and every such `n > 0` gives `true`, whatever the
metadata lookup does afterwards. -/
theorem ownership_flag_is_positive_id (env : Env) (force : Bool) (s : NFTState)
    (c : OriginNFT) (w : String) (tok : BigNumber) (n : Nat) (hp : Proceeds env force s c w)
    (hq : c.addressToTokenId w = .ok tok) (hn : tok.toNumber = .ok n) :
    (check env force s).2.state.hasNFT = decide (n > 0) ∧
    (n = 0 → (check env force s).2.state.hasNFT = false) ∧
    (n > 0 → (check env force s).2.state.hasNFT = true) := by
  have key : (check env force s).2.state.hasNFT = decide (n > 0) := by
    rcases Nat.eq_zero_or_pos n with h0 | hpos
    · subst h0
      rw [check_notOwned hp hq hn]
      rfl
    · obtain ⟨u, rest, h⟩ := check_owned hp hq hn hpos
      rw [h]
      simp [hpos]
  refine ⟨key, fun h0 => ?_, fun hpos => ?_⟩
  · rw [key]; simp [h0]
  · rw [key]; simp [hpos]

/-- Witness of C2: wallet `0xB` holds no token on `sampleContract`, so a forced
check made while the record of `0xA` is displayed commits `hasNFT = false`. -/
theorem ownership_flag_is_positive_id_witness :
    afterA.hasNFT = true ∧
    (check (sampleEnv (some "0xB") 2000) true afterA).2.state.hasNFT = false :=
  ⟨by decide,
    (ownership_flag_is_positive_id (sampleEnv (some "0xB") 2000) true afterA sampleContract
      "0xB" ⟨0, true⟩ 0 ⟨rfl, rfl, by decide, by decide⟩ rfl rfl).2.1 rfl⟩

/-- C3, the code at the failing input: the cache was recorded by the check for
wallet `0xA` at time 1000 and the wallet under evaluation at time 2000 is `0xB`.
The gate as the claim words it does not skip, the condition of line 26 does,
and so does the same condition for the recorded wallet `0xA`: the wallet plays
no part in it. -/
theorem cache_gate_skips_for_other_wallet :
    afterA.lastCheck = 1000 ∧
    afterA.userNFT.map NFT.owner = some "0xA" ∧
    specShouldSkip "0xA" afterA.lastCheck "0xB" false 2000 = false ∧
    specShouldSkip "0xA" afterA.lastCheck "0xA" false 2000 = true ∧
    cacheGate false afterA.lastCheck (sampleEnv (some "0xB") 2000).now = true ∧
    cacheGate false afterA.lastCheck (sampleEnv (some "0xA") 2000).now = true := by
  decide

/-- C4, the code at the failing input: after the check for wallet `0xA` at time
1000 the state shows the token of `0xA`; the non-forced call for wallet `0xB`
at time 2000 returns at the gate, issues no query and leaves that state, while
a fresh query for `0xB` finds no token. -/
theorem wallet_change_within_ttl_is_cache_hit :
    afterA.hasNFT = true ∧
    afterA.userNFT.map NFT.owner = some "0xA" ∧
    (check (sampleEnv (some "0xB") 2000) false afterA).2.calls = [] ∧
    (check (sampleEnv (some "0xB") 2000) false afterA).2.state = afterA ∧
    (check (sampleEnv (some "0xB") 2000) true afterA).2.calls = [.addressToTokenId "0xB"] ∧
    (check (sampleEnv (some "0xB") 2000) true afterA).2.state.hasNFT = false := by
  decide

/-- C5, the code at the failing input: one second after the check for `0xA`
the wallet is gone, or the contract handle is gone; the non-forced call returns
at the gate of line 26, before the guard of line 30, and `hasNFT` is still
`true` with the record still in `userNFT`. -/
theorem not_ready_guard_after_gate :
    (sampleEnv none 2000).walletAddress = none ∧
    (check (sampleEnv none 2000) false afterA).2.state.hasNFT = true ∧
    (check (sampleEnv none 2000) false afterA).2.state.userNFT ≠ none ∧
    (constEnv none (some "0xA") (.error "offline") 2000).originNFT = none ∧
    (check (constEnv none (some "0xA") (.error "offline") 2000) false afterA).2.state.hasNFT
      = true := by
  refine ⟨rfl, by decide, by decide, rfl, by decide⟩

/-- The guard of lines 30-35: if the contract handle or the wallet is absent,
the call issues no contract query, and when the gate of line 26 does not return
first it commits `hasNFT = false`, `userNFT = null` and `isLoading = false`. -/
theorem not_ready_guard (env : Env) (force : Bool) (s : NFTState)
    (habs : env.originNFT = none ∨ truthyOpt env.walletAddress = false) :
    (check env force s).2.calls = [] ∧
    (cacheGate force s.lastCheck env.now = false →
      (check env force s).1 = .ok () ∧
      (check env force s).2.state.hasNFT = false ∧
      (check env force s).2.state.userNFT = none ∧
      (check env force s).2.state.isLoading = false) := by
  constructor
  · rcases hg : cacheGate force s.lastCheck env.now with _ | _
    · rw [check_notReady env force s hg habs]
    · rw [check_skip env force s hg]
  · intro hg
    rw [check_notReady env force s hg habs]
    exact ⟨rfl, rfl, rfl, rfl⟩

/-- C6: after a check that queried the contract successfully at time `T > 0`
for wallet `W`, a later non-forced call for the same `W` at time `t`, with
contract and wallet present, issues no query when `t - T < 30000` and issues
the `addressToTokenId` query for `W` when `t - T >= 30000`. -/
theorem cache_hit_within_ttl_and_query_after (env1 env2 : Env) (force1 : Bool) (s : NFTState)
    (c1 c2 : OriginNFT) (W : String) (tok : BigNumber) (n : Nat)
    (hp : Proceeds env1 force1 s c1 W) (hq : c1.addressToTokenId W = .ok tok)
    (hn : tok.toNumber = .ok n) (hT : 0 < env1.now)
    (hc2 : env2.originNFT = some c2) (hw2 : env2.walletAddress = some W) :
    (env2.now - env1.now < 30000 →
      (check env2 false (check env1 force1 s).2.state).2.calls = []) ∧
    (env2.now - env1.now ≥ 30000 →
      Event.addressToTokenId W ∈ (check env2 false (check env1 force1 s).2.state).2.calls) := by
  have hlast := check_lastCheck hp hq hn
  constructor
  · intro hlt
    have hg : cacheGate false (check env1 force1 s).2.state.lastCheck env2.now = true := by
      rw [cacheGate_eq_true_iff, hlast]
      exact ⟨rfl, by omega, hlt⟩
    rw [check_skip env2 false _ hg]
  · intro hge
    have hg : cacheGate false (check env1 force1 s).2.state.lastCheck env2.now = false := by
      rw [Bool.eq_false_iff, ne_eq, cacheGate_eq_true_iff, hlast]
      omega
    obtain ⟨rest, h⟩ := check_proceeds_calls
      (⟨hc2, hw2, hp.nonempty, hg⟩ : Proceeds env2 false (check env1 force1 s).2.state c2 W)
    rw [h]
    exact List.mem_cons_self _ _

/-- Witness of C6: the check for `0xA` at `T = 1000`, then the same wallet at
`T + 10000` (no query) and at `T + 31000` (a query). -/
theorem cache_hit_within_ttl_and_query_after_witness :
    (check (sampleEnv (some "0xA") 11000) false
      (check (sampleEnv (some "0xA") 1000) false NFTState.initial).2.state).2.calls = [] ∧
    Event.addressToTokenId "0xA" ∈ (check (sampleEnv (some "0xA") 32000) false
      (check (sampleEnv (some "0xA") 1000) false NFTState.initial).2.state).2.calls :=
  ⟨(cache_hit_within_ttl_and_query_after (sampleEnv (some "0xA") 1000)
      (sampleEnv (some "0xA") 11000) false NFTState.initial sampleContract sampleContract "0xA"
      ⟨7, true⟩ 7 ⟨rfl, rfl, by decide, by decide⟩ rfl rfl (by decide) rfl rfl).1 (by decide),
   (cache_hit_within_ttl_and_query_after (sampleEnv (some "0xA") 1000)
      (sampleEnv (some "0xA") 32000) false NFTState.initial sampleContract sampleContract "0xA"
      ⟨7, true⟩ 7 ⟨rfl, rfl, by decide, by decide⟩ rfl rfl (by decide) rfl rfl).2 (by decide)⟩

/-- C7: for every state and every cache age, a call with `forceRefresh = true`
and with contract handle and wallet present performs the `addressToTokenId`
query for the wallet. -/
theorem forced_call_queries (env : Env) (s : NFTState) (c : OriginNFT) (w : String)
    (hc : env.originNFT = some c) (hw : env.walletAddress = some w) (hne : w ≠ "") :
    Event.addressToTokenId w ∈ (check env true s).2.calls := by
  obtain ⟨rest, h⟩ := check_proceeds_calls
    (⟨hc, hw, hne, cacheGate_force s.lastCheck env.now⟩ : Proceeds env true s c w)
  rw [h]
  exact List.mem_cons_self _ _

/-- Witness of C7: a forced call one second after the check for `0xA`. -/
theorem forced_call_queries_witness :
    cacheGate false afterA.lastCheck 2000 = true ∧
    Event.addressToTokenId "0xA" ∈ (check (sampleEnv (some "0xA") 2000) true afterA).2.calls :=
  ⟨by decide,
    forced_call_queries (sampleEnv (some "0xA") 2000) afterA sampleContract "0xA" rfl rfl
      (by decide)⟩

/-- C8: when `addressToTokenId` returns a positive id and the `tokenURI` lookup
fails, the final state has `hasNFT = true`, `userNFT` is not `null` and
`userNFT.image` is `"/placeholder.svg"`. -/
theorem uri_failure_keeps_ownership (env : Env) (force : Bool) (s : NFTState)
    (c : OriginNFT) (w : String) (tok : BigNumber) (n : Nat) (e : String)
    (hp : Proceeds env force s c w) (hq : c.addressToTokenId w = .ok tok)
    (hn : tok.toNumber = .ok n) (hpos : 0 < n) (hu : c.tokenURI tok = .error e) :
    (check env force s).2.state.hasNFT = true ∧
    (check env force s).2.state.userNFT ≠ none ∧
    (check env force s).2.state.userNFT.bind NFT.image = some "/placeholder.svg" := by
  rw [check_uriFails hp hq hn hpos hu]
  exact ⟨rfl, by simp, rfl⟩

/-- Witness of C8: wallet `0xA` holds token 7 and `tokenURI` reverts at mount. -/
theorem uri_failure_keeps_ownership_witness :
    NFTState.initial.userNFT = none ∧
    (check (constEnv (some (constContract (.ok ⟨7, true⟩) (.error "revert"))) (some "0xA")
        (.error "offline") 1000) false NFTState.initial).2.state.hasNFT = true ∧
    (check (constEnv (some (constContract (.ok ⟨7, true⟩) (.error "revert"))) (some "0xA")
        (.error "offline") 1000) false NFTState.initial).2.state.userNFT ≠ none ∧
    (check (constEnv (some (constContract (.ok ⟨7, true⟩) (.error "revert"))) (some "0xA")
        (.error "offline") 1000) false NFTState.initial).2.state.userNFT.bind NFT.image
      = some "/placeholder.svg" :=
  ⟨rfl,
    uri_failure_keeps_ownership
      (constEnv (some (constContract (.ok ⟨7, true⟩) (.error "revert"))) (some "0xA")
        (.error "offline") 1000)
      false NFTState.initial (constContract (.ok ⟨7, true⟩) (.error "revert")) "0xA" ⟨7, true⟩ 7
      "revert" ⟨rfl, rfl, by decide, by decide⟩ rfl rfl (by decide) rfl⟩

/-- C9, the code at the failing input: wallet `0xA` holds token 7, `tokenURI`
returns `ipfs://abc` and the gateway answers with a response that is not `ok`.
At mount the call leaves `userNFT = null` next to `hasNFT = true`; made over the
record fetched earlier it leaves that record in place.  In neither case is the
record of lines 80-86 committed, which is what happens when `json()` throws. -/
theorem http_failure_leaves_userNFT_unwritten :
    (check (constEnv (some sampleContract) (some "0xA")
        (.ok { ok := false, json := .error "Not Found" }) 1000) false NFTState.initial).2.state
      = { userNFT := none, hasNFT := true, isMinting := false, isLoading := false,
          lastCheck := 1000 } ∧
    afterA.userNFT.map NFT.name = some "Cool #7" ∧
    (check (constEnv (some sampleContract) (some "0xA")
        (.ok { ok := false, json := .error "Not Found" }) 50000) false afterA).2.state.userNFT
      = afterA.userNFT ∧
    (check (constEnv (some sampleContract) (some "0xA")
        (.ok { ok := true, json := .error "Unexpected token" }) 1000) false
        NFTState.initial).2.state.userNFT
      = some (basicRecord 7 "0xA") := by
  decide

/-- C10, counterexample: wallet `0xA` holds token 7 and `tokenURI` reverts.  The
record committed by lines 80-86 has no `traits` property, so it differs from the
record of the claim, whose `traits` is the empty sequence. -/
theorem basic_record_has_no_traits :
    (check (constEnv (some (constContract (.ok ⟨7, true⟩) (.error "revert"))) (some "0xA")
        (.error "offline") 1000) false NFTState.initial).2.state.userNFT
      = some { id := 7, name := "Origin NFT #7", description := some "IOPn Origin NFT",
               image := some "/placeholder.svg", traits := none, mintedAt := none,
               owner := "0xA" } ∧
    (check (constEnv (some (constContract (.ok ⟨7, true⟩) (.error "revert"))) (some "0xA")
        (.error "offline") 1000) false NFTState.initial).2.state.userNFT
      ≠ some { id := 7, name := "Origin NFT #7", description := some "IOPn Origin NFT",
               image := some "/placeholder.svg", traits := some [], mintedAt := none,
               owner := "0xA" } := by
  decide

/-- C10, amended: for every positive token id `n` and wallet `w`, the record
committed when `tokenURI`, `fetch` or `json()` throws is
`{id: n, name: "Origin NFT #n", description: "IOPn Origin NFT",
image: "/placeholder.svg", owner: w}`; it has no `traits` and no `mintedAt`
property. -/
theorem basic_record_on_metadata_failure (env : Env) (force : Bool) (s : NFTState)
    (c : OriginNFT) (w : String) (tok : BigNumber) (n : Nat)
    (hp : Proceeds env force s c w) (hq : c.addressToTokenId w = .ok tok)
    (hn : tok.toNumber = .ok n) (hpos : 0 < n) (hthrow : MetadataThrows env c tok) :
    (check env force s).2.state.userNFT =
      some { id := n
             name := "Origin NFT #" ++ toString n
             description := some "IOPn Origin NFT"
             image := some "/placeholder.svg"
             traits := none
             mintedAt := none
             owner := w } := by
  rcases hthrow with ⟨e, hu⟩ | ⟨uri, hu, hne, ⟨e, hf⟩ | ⟨resp, e, hf, hok, hj⟩⟩
  · rw [check_uriFails hp hq hn hpos hu]
    rfl
  · rw [check_fetchFails hp hq hn hpos hu hne hf]
    rfl
  · rw [check_jsonFails hp hq hn hpos hu hne hf hok hj]
    rfl

/-- Witness of C10: wallet `0xA` holds token 7 and the gateway cannot be reached. -/
theorem basic_record_on_metadata_failure_witness :
    MetadataThrows (constEnv (some sampleContract) (some "0xA") (.error "offline") 1000)
      sampleContract ⟨7, true⟩ ∧
    (check (constEnv (some sampleContract) (some "0xA") (.error "offline") 1000) false
        NFTState.initial).2.state.userNFT =
      some { id := 7
             name := "Origin NFT #" ++ toString 7
             description := some "IOPn Origin NFT"
             image := some "/placeholder.svg"
             traits := none
             mintedAt := none
             owner := "0xA" } :=
  ⟨Or.inr ⟨"ipfs://abc", rfl, by decide, Or.inl ⟨"offline", rfl⟩⟩,
    basic_record_on_metadata_failure
      (constEnv (some sampleContract) (some "0xA") (.error "offline") 1000) false
      NFTState.initial sampleContract "0xA" ⟨7, true⟩ 7 ⟨rfl, rfl, by decide, by decide⟩ rfl rfl
      (by decide) (Or.inr ⟨"ipfs://abc", rfl, by decide, Or.inl ⟨"offline", rfl⟩⟩)⟩

/-! ## Every call completes -/

/-- A call returns at the gate, or at the guard, or reaches the query. -/
theorem check_classify (env : Env) (force : Bool) (s : NFTState) :
    cacheGate force s.lastCheck env.now = true ∨
    (cacheGate force s.lastCheck env.now = false ∧
      (env.originNFT = none ∨ truthyOpt env.walletAddress = false)) ∨
    ∃ c w, Proceeds env force s c w := by
  rcases hg : cacheGate force s.lastCheck env.now with _ | _
  · right
    rcases ho : env.originNFT with _ | c
    · exact Or.inl ⟨rfl, Or.inl rfl⟩
    · rcases hw : env.walletAddress with _ | w
      · exact Or.inl ⟨rfl, Or.inr rfl⟩
      · by_cases hne : w = ""
        · subst hne
          exact Or.inl ⟨rfl, Or.inr rfl⟩
        · exact Or.inr ⟨c, w, ho, hw, hne, hg⟩
  · exact Or.inl rfl

/-- What a call that reaches the query leaves behind: either the not-owned
state without a new timestamp (the query or `toNumber()` threw), or the
not-owned state with the timestamp, or the owned state with the timestamp. -/
theorem check_proceeds_state {env : Env} {force : Bool} {s : NFTState} {c : OriginNFT}
    {w : String} (hp : Proceeds env force s c w) :
    ∃ calls,
      check env force s =
        (.ok (),
          ⟨{ s with hasNFT := false, userNFT := none, isLoading := false }, calls⟩) ∨
      check env force s =
        (.ok (),
          ⟨{ s with hasNFT := false, lastCheck := env.now, userNFT := none, isLoading := false },
            calls⟩) ∨
      ∃ u, check env force s =
        (.ok (),
          ⟨{ s with hasNFT := true, lastCheck := env.now, userNFT := u, isLoading := false },
            calls⟩) := by
  rcases hq : c.addressToTokenId w with e | tok
  · exact ⟨_, Or.inl (check_queryFails hp hq)⟩
  · rcases hn : tok.toNumber with e | n
    · exact ⟨_, Or.inl (check_toNumberFails hp hq hn)⟩
    · rcases Nat.eq_zero_or_pos n with h0 | hpos
      · subst h0
        exact ⟨_, Or.inr (Or.inl (check_notOwned hp hq hn))⟩
      · obtain ⟨u, rest, h⟩ := check_owned hp hq hn hpos
        exact ⟨_, Or.inr (Or.inr ⟨u, h⟩)⟩

/-- No call of `checkNFTOwnership` throws. -/
theorem check_ok (env : Env) (force : Bool) (s : NFTState) : (check env force s).1 = .ok () := by
  rcases check_classify env force s with hg | ⟨hg, habs⟩ | ⟨c, w, hp⟩
  · rw [check_skip env force s hg]
  · rw [check_notReady env force s hg habs]
  · obtain ⟨calls, h | h | ⟨u, h⟩⟩ := check_proceeds_state hp <;> rw [h]

/-- No call of `checkNFTOwnership` writes `isMinting`. -/
theorem check_isMinting (env : Env) (force : Bool) (s : NFTState) :
    (check env force s).2.state.isMinting = s.isMinting := by
  rcases check_classify env force s with hg | ⟨hg, habs⟩ | ⟨c, w, hp⟩
  · rw [check_skip env force s hg]
  · rw [check_notReady env force s hg habs]
  · obtain ⟨calls, h | h | ⟨u, h⟩⟩ := check_proceeds_state hp <;> rw [h]

/-- What `mintNFT` does when the callback completes: the callback has run with
the flag raised, and the flag is lowered afterwards. -/
theorem mintNFT_ok {P : Type} {cb : Bool → Hook Unit} {nftData : P} {s : NFTState} {r1 : Run}
    (h : (cb true).run ⟨{ s with isMinting := true }, []⟩ = (.ok (), r1)) :
    (mintNFT cb nftData).run ⟨s, []⟩ =
      (.ok (), { r1 with state := { r1.state with isMinting := false } }) := by
  simp [mintNFT, h]

/-- What `mintNFT` does when the callback throws: the flag is lowered and the
same error is thrown to the caller. -/
theorem mintNFT_error {P : Type} {cb : Bool → Hook Unit} {nftData : P} {s : NFTState}
    {e : String} {r1 : Run}
    (h : (cb true).run ⟨{ s with isMinting := true }, []⟩ = (.error e, r1)) :
    (mintNFT cb nftData).run ⟨s, []⟩ =
      (.error e, { r1 with state := { r1.state with isMinting := false } }) := by
  simp [mintNFT, h]

/-- A call of `mintNFT` is a forced check made with the flag raised, after
which the flag is lowered. -/
theorem mint_eq {P : Type} (env : Env) (nftData : P) (s : NFTState) :
    mint env nftData s =
      (.ok (),
        { (check env true { s with isMinting := true }).2 with
          state := { (check env true { s with isMinting := true }).2.state with
                     isMinting := false } }) := by
  have h : (checkNFTOwnership env true).run ⟨{ s with isMinting := true }, []⟩ =
      (.ok (), (check env true { s with isMinting := true }).2) := by
    have := check_ok env true { s with isMinting := true }
    rw [check] at this ⊢
    exact Prod.ext this rfl
  exact mintNFT_ok h

/-- A call of `updateNFT` is a forced check. -/
theorem update_eq {P : Type} (env : Env) (updates : P) (s : NFTState) :
    update env updates s = check env true s := rfl

/-- C11, counterexample: wallet `0xA` holds token 7 and the gateway serves a
document whose `name` is the empty string and whose `image` is an `https` URL
with `ipfs://` inside its query.  The committed name is the fallback, not
`m.name`, and the committed image is not `m.image` although `m.image` has no
`ipfs://` at its start. -/
theorem fetched_record_edge_cases :
    (check (constEnv (some sampleContract) (some "0xA")
        (.ok { ok := true,
               json := .ok { name := some "", description := none,
                             image := some "https://cdn.example/?src=ipfs://abc",
                             attributes := none } }) 1000)
      false NFTState.initial).2.state.userNFT
      = some { id := 7, name := "Origin NFT #7", description := none,
               image := some "https://cdn.example/?src=https://gateway.pinata.cloud/ipfs/abc",
               traits := some [], mintedAt := some "1/1/2025", owner := "0xA" } ∧
    "ipfs://".data.isPrefixOf "https://cdn.example/?src=ipfs://abc".data = false := by
  decide

/-- C11, amended: when the metadata document `m` is fetched and parsed for the
positive token id `n` of wallet `w`, the committed record has `id = n`,
`name = m.name` when `m.name` is a non-empty string and `"Origin NFT #n"` when
it is absent or empty, `description = m.description`, `image` the result of
`replace("ipfs://", gateway)` on `m.image` (absent when `m.image` is absent),
`traits = m.attributes` (the empty sequence when absent), `mintedAt` the date of
the call and `owner = w`. -/
theorem fetched_record (env : Env) (force : Bool) (s : NFTState) (c : OriginNFT) (w : String)
    (tok : BigNumber) (n : Nat) (uri : String) (resp : Response) (m : Metadata)
    (hp : Proceeds env force s c w) (hq : c.addressToTokenId w = .ok tok)
    (hn : tok.toNumber = .ok n) (hpos : 0 < n) (hu : c.tokenURI tok = .ok uri) (hne : uri ≠ "")
    (hf : env.fetch (toGateway uri) = .ok resp) (hok : resp.ok = true) (hj : resp.json = .ok m) :
    ∃ nft, (check env force s).2.state.userNFT = some nft ∧
      nft.id = n ∧
      (∀ nm, m.name = some nm → nm ≠ "" → nft.name = nm) ∧
      (m.name = none ∨ m.name = some "" → nft.name = "Origin NFT #" ++ toString n) ∧
      nft.description = m.description ∧
      nft.image = m.image.map toGateway ∧
      nft.traits = some (m.attributes.getD []) ∧
      nft.mintedAt = some env.today ∧
      nft.owner = w := by
  rw [check_fetched hp hq hn hpos hu hne hf hok hj]
  refine ⟨_, rfl, rfl, ?_, ?_, rfl, rfl, rfl, rfl, rfl⟩
  · intro nm hnm hnz
    simp [hnm, truthyOpt, truthy, hnz]
  · rintro (h | h) <;> simp [h, truthyOpt, truthy]

/-- Witness of C11: wallet `0xA`, token 7 at `ipfs://abc`, and the gateway
serves `coolSeven`. -/
theorem fetched_record_witness :
    (check (sampleEnv (some "0xA") 1000) false NFTState.initial).2.state.userNFT
      = some { id := 7, name := "Cool #7", description := none, image := none,
               traits := some [{ trait_type := "Color", value := "Blue" }],
               mintedAt := some "1/1/2025", owner := "0xA" } := by
  obtain ⟨nft, h, hid, hname, -, hdesc, himg, htr, hdate, hown⟩ :=
    fetched_record (sampleEnv (some "0xA") 1000) false NFTState.initial sampleContract "0xA"
      ⟨7, true⟩ 7 "ipfs://abc" { ok := true, json := .ok coolSeven } coolSeven
      ⟨rfl, rfl, by decide, by decide⟩ rfl rfl (by decide) rfl (by decide) rfl rfl rfl
  rw [h]
  have hname2 := hname "Cool #7" rfl (by decide)
  cases nft
  simp_all [coolSeven, sampleEnv, constEnv]

/-- The two cells of the invariant are kept together by a check. -/
theorem check_keeps_null (env : Env) (force : Bool) (s : NFTState)
    (hs : s.hasNFT = false → s.userNFT = none) :
    (check env force s).2.state.hasNFT = false → (check env force s).2.state.userNFT = none := by
  rcases check_classify env force s with hg | ⟨hg, habs⟩ | ⟨c, w, hp⟩
  · rw [check_skip env force s hg]
    exact hs
  · rw [check_notReady env force s hg habs]
    exact fun _ => rfl
  · obtain ⟨calls, h | h | ⟨u, h⟩⟩ := check_proceeds_state hp <;> rw [h]
    · exact fun _ => rfl
    · exact fun _ => rfl
    · intro hf
      cases hf

/-- The two cells of the invariant are kept together by every operation. -/
theorem step_keeps_null {P : Type} (env : Env) (c : Call P) (s : NFTState)
    (hs : s.hasNFT = false → s.userNFT = none) :
    (step s env c).hasNFT = false → (step s env c).userNFT = none := by
  cases c with
  | check f => exact check_keeps_null env f s hs
  | mint d =>
    show (mint env d s).2.state.hasNFT = false → (mint env d s).2.state.userNFT = none
    rw [mint_eq]
    exact check_keeps_null env true { s with isMinting := true } hs
  | update u => exact check_keeps_null env true s hs

theorem runCalls_keeps_null {P : Type} (calls : List (Env × Call P)) (s : NFTState)
    (hs : s.hasNFT = false → s.userNFT = none) :
    (runCalls s calls).hasNFT = false → (runCalls s calls).userNFT = none := by
  induction calls generalizing s with
  | nil => exact hs
  | cons a rest ih =>
    obtain ⟨env, c⟩ := a
    exact ih (step s env c) (step_keeps_null env c s hs)

/-- C12: in the initial state and in every state reached from it by a sequence
of completed `checkNFTOwnership`, `mintNFT` and `updateNFT` calls, with any
wallets, contract handles, clock values and outcomes of the external calls,
`hasNFT = false` implies `userNFT = null`. -/
theorem no_record_without_ownership (P : Type) (calls : List (Env × Call P))
    (h : (runCalls NFTState.initial calls).hasNFT = false) :
    (runCalls NFTState.initial calls).userNFT = none :=
  runCalls_keeps_null calls NFTState.initial (fun _ => rfl) h

/-- Witness of C12: a check for `0xA`, which holds token 7, then a forced check
for `0xB`, which holds none. -/
theorem no_record_without_ownership_witness :
    (runCalls NFTState.initial
      [(sampleEnv (some "0xA") 1000, (Call.check false : Call Unit)),
       (sampleEnv (some "0xB") 2000, Call.check true)]).hasNFT = false ∧
    (runCalls NFTState.initial
      [(sampleEnv (some "0xA") 1000, (Call.check false : Call Unit)),
       (sampleEnv (some "0xB") 2000, Call.check true)]).userNFT = none :=
  ⟨by decide,
    no_record_without_ownership Unit
      [(sampleEnv (some "0xA") 1000, Call.check false),
       (sampleEnv (some "0xB") 2000, Call.check true)] (by decide)⟩

/-- C13, counterexample: at mount the contract call for `0xA` reverts at time
1000.  The timestamp stays 0 instead of becoming 1000, and the non-forced call
made for the same wallet one second later is no cache hit: it issues the query
again. -/
theorem failed_query_leaves_timestamp :
    (check (constEnv (some (constContract (.error "revert") (.ok ""))) (some "0xA")
        (.error "offline") 1000) false NFTState.initial).2.state.lastCheck = 0 ∧
    (check (constEnv (some (constContract (.error "revert") (.ok ""))) (some "0xA")
        (.error "offline") 2000) false
      (check (constEnv (some (constContract (.error "revert") (.ok ""))) (some "0xA")
        (.error "offline") 1000) false NFTState.initial).2.state).2.calls
      = [.addressToTokenId "0xA"] := by
  decide

/-- C13, amended: when the `addressToTokenId` query fails, the call leaves the
cache timestamp as it was (`lastCheck` is not set to `now`); so after a
non-forced call whose query failed, a following non-forced call for the same
wallet, made when the clock has not gone back, is not a cache hit and issues
the query again. -/
theorem query_failure_keeps_timestamp (env env2 : Env) (force : Bool) (s : NFTState)
    (c c2 : OriginNFT) (w e : String) (hp : Proceeds env force s c w)
    (hq : c.addressToTokenId w = .error e) :
    (check env force s).2.state.lastCheck = s.lastCheck ∧
    (force = false → env2.originNFT = some c2 → env2.walletAddress = some w →
      env.now ≤ env2.now →
      Event.addressToTokenId w ∈ (check env2 false (check env force s).2.state).2.calls) := by
  rw [check_queryFails hp hq]
  refine ⟨rfl, fun hforce hc2 hw2 hle => ?_⟩
  have hg1 := hp.gate
  rw [hforce, Bool.eq_false_iff, ne_eq, cacheGate_eq_true_iff] at hg1
  have hg2 : cacheGate false s.lastCheck env2.now = false := by
    rw [Bool.eq_false_iff, ne_eq, cacheGate_eq_true_iff]
    intro h
    exact hg1 ⟨rfl, h.2.1, by have := h.2.2; omega⟩
  obtain ⟨rest, h⟩ := check_proceeds_calls
    (⟨hc2, hw2, hp.nonempty, hg2⟩ :
      Proceeds env2 false { s with hasNFT := false, userNFT := none, isLoading := false } c2 w)
  rw [h]
  exact List.mem_cons_self _ _

/-- Witness of C13: the contract call reverts 49 s after the check for `0xA`,
and the wallet is checked again one second later. -/
theorem query_failure_keeps_timestamp_witness :
    (check (constEnv (some (constContract (.error "revert") (.ok ""))) (some "0xA")
        (.error "offline") 50000) false afterA).2.state.lastCheck = afterA.lastCheck ∧
    Event.addressToTokenId "0xA" ∈
      (check (sampleEnv (some "0xA") 51000) false
        (check (constEnv (some (constContract (.error "revert") (.ok ""))) (some "0xA")
          (.error "offline") 50000) false afterA).2.state).2.calls :=
  ⟨(query_failure_keeps_timestamp
      (constEnv (some (constContract (.error "revert") (.ok ""))) (some "0xA")
        (.error "offline") 50000)
      (sampleEnv (some "0xA") 51000) false afterA (constContract (.error "revert") (.ok ""))
      sampleContract "0xA" "revert" ⟨rfl, rfl, by decide, by decide⟩ rfl).1,
   (query_failure_keeps_timestamp
      (constEnv (some (constContract (.error "revert") (.ok ""))) (some "0xA")
        (.error "offline") 50000)
      (sampleEnv (some "0xA") 51000) false afterA (constContract (.error "revert") (.ok ""))
      sampleContract "0xA" "revert" ⟨rfl, rfl, by decide, by decide⟩ rfl).2 rfl rfl rfl
      (by decide)⟩

/-- C14: `checkNFTOwnership` never throws: for every state, force flag,
environment and outcome of `addressToTokenId`, `tokenURI`, `fetch` and `json()`
the call completes normally; a failure that the inner handlers do not cover
(`toNumber()` throwing on line 52) is committed as `hasNFT = false`,
`userNFT = null`. -/
theorem check_never_throws (env : Env) (force : Bool) (s : NFTState) :
    (check env force s).1 = .ok () ∧
    ∀ (c : OriginNFT) (w : String) (tok : BigNumber) (e : String),
      Proceeds env force s c w → c.addressToTokenId w = .ok tok → tok.toNumber = .error e →
        (check env force s).2.state.hasNFT = false ∧
        (check env force s).2.state.userNFT = none ∧
        (check env force s).2.state.isLoading = false := by
  refine ⟨check_ok env force s, fun c w tok e hp hq hn => ?_⟩
  rw [check_toNumberFails hp hq hn]
  exact ⟨rfl, rfl, rfl⟩

/-- Witness of C14: over the record of `0xA`, the contract answers with a token
id on which `toNumber()` throws. -/
theorem check_never_throws_witness :
    afterA.hasNFT = true ∧
    (check (constEnv (some (constContract (.ok ⟨2 ^ 64, false⟩) (.ok ""))) (some "0xA")
        (.error "offline") 50000) false afterA).1 = .ok () ∧
    (check (constEnv (some (constContract (.ok ⟨2 ^ 64, false⟩) (.ok ""))) (some "0xA")
        (.error "offline") 50000) false afterA).2.state.hasNFT = false ∧
    (check (constEnv (some (constContract (.ok ⟨2 ^ 64, false⟩) (.ok ""))) (some "0xA")
        (.error "offline") 50000) false afterA).2.state.userNFT = none ∧
    (check (constEnv (some (constContract (.ok ⟨2 ^ 64, false⟩) (.ok ""))) (some "0xA")
        (.error "offline") 50000) false afterA).2.state.isLoading = false :=
  ⟨by decide,
    (check_never_throws
      (constEnv (some (constContract (.ok ⟨2 ^ 64, false⟩) (.ok ""))) (some "0xA")
        (.error "offline") 50000) false afterA).1,
    (check_never_throws
      (constEnv (some (constContract (.ok ⟨2 ^ 64, false⟩) (.ok ""))) (some "0xA")
        (.error "offline") 50000) false afterA).2
      (constContract (.ok ⟨2 ^ 64, false⟩) (.ok "")) "0xA" ⟨2 ^ 64, false⟩ "overflow"
      ⟨rfl, rfl, by decide, by decide⟩ rfl rfl⟩

/-- A check clears `isLoading` unless it returns at the gate. -/
theorem check_isLoading (env : Env) (force : Bool) (s : NFTState)
    (hs : s.lastCheck ≠ 0 → s.isLoading = false) :
    (check env force s).2.state.isLoading = false := by
  rcases check_classify env force s with hg | ⟨hg, habs⟩ | ⟨c, w, hp⟩
  · rw [check_skip env force s hg]
    exact hs ((cacheGate_eq_true_iff _ _ _).1 hg).2.1
  · rw [check_notReady env force s hg habs]
  · obtain ⟨calls, h | h | ⟨u, h⟩⟩ := check_proceeds_state hp <;> rw [h]

/-- Every operation returns with `isLoading` cleared, once a timestamp implies
that it was cleared before. -/
theorem step_isLoading {P : Type} (env : Env) (c : Call P) (s : NFTState)
    (hs : s.lastCheck ≠ 0 → s.isLoading = false) :
    (step s env c).isLoading = false := by
  cases c with
  | check f => exact check_isLoading env f s hs
  | mint d =>
    show (mint env d s).2.state.isLoading = false
    rw [mint_eq]
    exact check_isLoading env true { s with isMinting := true } hs
  | update u => exact check_isLoading env true s hs

theorem runCalls_isLoading {P : Type} (calls : List (Env × Call P)) (s : NFTState)
    (hs : s.lastCheck ≠ 0 → s.isLoading = false) :
    (runCalls s calls).lastCheck ≠ 0 → (runCalls s calls).isLoading = false := by
  induction calls generalizing s with
  | nil => exact hs
  | cons a rest ih =>
    obtain ⟨env, c⟩ := a
    exact ih (step s env c) (fun _ => step_isLoading env c s hs)

/-- C15: in every state reached from the initial state by completed calls, and
for every environment and force flag, `isLoading = false` when
`checkNFTOwnership` returns, on every path (gate, guard, failed query, owned
with or without metadata, not owned, catch-all). -/
theorem check_clears_isLoading (P : Type) (calls : List (Env × Call P)) (env : Env)
    (force : Bool) :
    (check env force (runCalls NFTState.initial calls)).2.state.isLoading = false :=
  check_isLoading env force _
    (runCalls_isLoading calls NFTState.initial (fun h => absurd rfl h))

/-- C16: for every state and payload, `mintNFT` raises `isMinting`, then runs
the callback `checkNFTOwnership` with `forceRefresh = true` (the callback runs
in the state with the flag raised), and on exit `isMinting = false` on both
outcomes: when the callback completes the call completes, and when the callback
throws the same error reaches the caller, after the flag is lowered.  With the
callback of the provider the call always completes. -/
theorem mint_lowers_flag (P : Type) (cb : Bool → Hook Unit) (env : Env) (nftData : P)
    (s : NFTState) :
    (∀ r1, (cb true).run ⟨{ s with isMinting := true }, []⟩ = (.ok (), r1) →
      (mintNFT cb nftData).run ⟨s, []⟩ =
        (.ok (), { r1 with state := { r1.state with isMinting := false } })) ∧
    (∀ e r1, (cb true).run ⟨{ s with isMinting := true }, []⟩ = (.error e, r1) →
      (mintNFT cb nftData).run ⟨s, []⟩ =
        (.error e, { r1 with state := { r1.state with isMinting := false } })) ∧
    ((mintNFT cb nftData).run ⟨s, []⟩).2.state.isMinting = false ∧
    (mint env nftData s).1 = .ok () ∧
    (mint env nftData s).2.calls = (check env true { s with isMinting := true }).2.calls ∧
    (mint env nftData s).2.state =
      { (check env true { s with isMinting := true }).2.state with isMinting := false } := by
  refine ⟨fun r1 h => mintNFT_ok h, fun e r1 h => mintNFT_error h, ?_, ?_, ?_, ?_⟩
  · rcases h : (cb true).run ⟨{ s with isMinting := true }, []⟩ with ⟨_ | _, r1⟩
    · rw [mintNFT_error h]
    · rw [mintNFT_ok h]
  · rw [mint_eq]
  · rw [mint_eq]
  · rw [mint_eq]

/-- Witness of C16: with the callback of the provider, `mintNFT` at mount for
wallet `0xA` ends with the record of token 7 and the flag lowered; with a
callback that reads the flag, writes `hasNFT` and throws, the error reaches the
caller and the flag is lowered. -/
theorem mint_lowers_flag_witness :
    ((mintNFT (checkNFTOwnership (sampleEnv (some "0xA") 1000)) ()).run
      ⟨NFTState.initial, []⟩).1 = .ok () ∧
    ((mintNFT (checkNFTOwnership (sampleEnv (some "0xA") 1000)) ()).run
      ⟨NFTState.initial, []⟩).2.state = afterA ∧
    ((mintNFT (fun _ => setHasNFT true >>= fun _ => throw "mint reverted") ()).run
      ⟨NFTState.initial, []⟩).1 = .error "mint reverted" ∧
    ((mintNFT (fun _ => setHasNFT true >>= fun _ => throw "mint reverted") ()).run
      ⟨NFTState.initial, []⟩).2.state
      = { NFTState.initial with hasNFT := true, isMinting := false } := by
  have h1 := (mint_lowers_flag Unit (checkNFTOwnership (sampleEnv (some "0xA") 1000))
    (sampleEnv (some "0xA") 1000) () NFTState.initial).1 _ rfl
  have h2 := (mint_lowers_flag Unit (fun _ => setHasNFT true >>= fun _ => throw "mint reverted")
    (sampleEnv (some "0xA") 1000) () NFTState.initial).2.1 "mint reverted"
    ⟨{ NFTState.initial with isMinting := true, hasNFT := true }, []⟩ rfl
  rw [h1, h2]
  exact ⟨rfl, by decide, rfl, rfl⟩

/-- C17: when the gate signals skip (a non-forced call with a recorded
timestamp younger than 30000 ms), `checkNFTOwnership` issues no contract query
and no HTTP request and leaves `hasNFT`, `userNFT`, `isLoading`, `isMinting`
and the cache timestamp unchanged. -/
theorem cache_skip_changes_nothing (env : Env) (s : NFTState) (hlast : s.lastCheck ≠ 0)
    (hfresh : env.now - s.lastCheck < 30000) :
    (check env false s).1 = .ok () ∧
    (check env false s).2.calls = [] ∧
    (check env false s).2.state.hasNFT = s.hasNFT ∧
    (check env false s).2.state.userNFT = s.userNFT ∧
    (check env false s).2.state.isLoading = s.isLoading ∧
    (check env false s).2.state.isMinting = s.isMinting ∧
    (check env false s).2.state.lastCheck = s.lastCheck := by
  rw [check_skip env false s ((cacheGate_eq_true_iff _ _ _).2 ⟨rfl, hlast, hfresh⟩)]
  exact ⟨rfl, rfl, rfl, rfl, rfl, rfl, rfl⟩

/-- Witness of C17: the same wallet ten seconds after the check for `0xA`. -/
theorem cache_skip_changes_nothing_witness :
    afterA.lastCheck ≠ 0 ∧
    (sampleEnv (some "0xA") 11000).now - afterA.lastCheck < 30000 ∧
    (check (sampleEnv (some "0xA") 11000) false afterA).2.calls = [] ∧
    (check (sampleEnv (some "0xA") 11000) false afterA).2.state.userNFT = afterA.userNFT :=
  ⟨by decide, by decide,
    (cache_skip_changes_nothing (sampleEnv (some "0xA") 11000) afterA (by decide)
      (by decide)).2.1,
    (cache_skip_changes_nothing (sampleEnv (some "0xA") 11000) afterA (by decide)
      (by decide)).2.2.2.1⟩

/-- C18: for every state and every payload, `updateNFT(u)` is
`checkNFTOwnership(true)`: same completion, same final state, same queries, and
nothing depends on the payload. -/
theorem update_is_forced_check (P Q : Type) (env : Env) (u : P) (v : Q) (r : Run)
    (s : NFTState) :
    (updateNFT env u).run r = (checkNFTOwnership env true).run r ∧
    update env u s = check env true s ∧
    (updateNFT env u).run r = (updateNFT env v).run r :=
  ⟨rfl, rfl, rfl⟩

/-- C19, counterexample: a URI that does not start with `ipfs://` but has it
inside is not returned unchanged. -/
theorem gateway_rewrites_inner_occurrence :
    "ipfs://".data.isPrefixOf "https://cdn.example/?src=ipfs://abc".data = false ∧
    toGateway "https://cdn.example/?src=ipfs://abc"
      = "https://cdn.example/?src=https://gateway.pinata.cloud/ipfs/abc" ∧
    toGateway "https://cdn.example/?src=ipfs://abc" ≠ "https://cdn.example/?src=ipfs://abc" := by
  decide

theorem replaceFirstIn_of_not_infix (pat rep : List Char) :
    ∀ l : List Char, ¬ pat <:+: l → replaceFirstIn pat rep l = l
  | [], h => by
    have hp : pat.isEmpty = false := by
      cases pat with
      | nil => exact absurd (List.infix_refl []) h
      | cons a t => rfl
    simp [replaceFirstIn, hp]
  | c :: cs, h => by
    have h1 : pat.isPrefixOf (c :: cs) = false := by
      rw [Bool.eq_false_iff, ne_eq, List.isPrefixOf_iff_prefix]
      exact fun hpre => h hpre.isInfix
    have h2 : ¬ pat <:+: cs := fun hin => h (hin.trans (List.suffix_cons c cs).isInfix)
    simp [replaceFirstIn, h1, replaceFirstIn_of_not_infix pat rep cs h2]

theorem replaceFirstIn_append (pat rep l : List Char) (hne : pat ≠ []) :
    replaceFirstIn pat rep (pat ++ l) = rep ++ l := by
  cases pat with
  | nil => exact absurd rfl hne
  | cons a t =>
    have h1 : (a :: t).isPrefixOf (a :: (t ++ l)) = true := by
      rw [List.isPrefixOf_iff_prefix]
      exact List.prefix_append (a :: t) l
    have h2 : List.drop (t.length + 1) (a :: (t ++ l)) = l := by
      simp
    show replaceFirstIn (a :: t) rep (a :: (t ++ l)) = rep ++ l
    rw [replaceFirstIn, if_pos h1]
    exact congrArg (rep ++ ·) h2

/-- C19, amended: for every string `s`, the URI `"ipfs://" ++ s` is mapped to
`"https://gateway.pinata.cloud/ipfs/" ++ s`, and every URI that does not
contain `ipfs://` anywhere is returned unchanged. -/
theorem gateway_rewrite :
    (∀ s : String, toGateway ("ipfs://" ++ s) = "https://gateway.pinata.cloud/ipfs/" ++ s) ∧
    (∀ u : String, ¬ "ipfs://".data <:+: u.data → toGateway u = u) := by
  constructor
  · intro s
    apply String.ext
    show replaceFirstIn "ipfs://".data "https://gateway.pinata.cloud/ipfs/".data
        ("ipfs://" ++ s).data = ("https://gateway.pinata.cloud/ipfs/" ++ s).data
    rw [String.data_append, String.data_append]
    exact replaceFirstIn_append _ _ _ (by decide)
  · intro u hu
    apply String.ext
    exact replaceFirstIn_of_not_infix _ _ _ hu

/-- Witness of C19: the token URI `ipfs://abc`, and an `https` URI without
`ipfs://`. -/
theorem gateway_rewrite_witness :
    toGateway ("ipfs://" ++ "abc") = "https://gateway.pinata.cloud/ipfs/" ++ "abc" ∧
    ¬ "ipfs://".data <:+: "https://a.io/7".data ∧
    toGateway "https://a.io/7" = "https://a.io/7" :=
  ⟨gateway_rewrite.1 "abc", by decide, gateway_rewrite.2 "https://a.io/7" (by decide)⟩

/-- C20, the code at the failing input: after the check for `0xA` (token 7) the
wallet is `0xB`, which holds token 9; the timestamp has expired, the call
queries the contract and resolves `0xB` to 9, but the gateway answers with a
response that is not `ok`.  The call ends with `hasNFT = true` and the record of
`0xA` and token 7 still in `userNFT`. -/
theorem stale_record_after_resolution :
    afterA = runCalls NFTState.initial
      [(sampleEnv (some "0xA") 1000, (Call.check false : Call Unit))] ∧
    (check (constEnv (some nineContract) (some "0xB")
        (.ok { ok := false, json := .error "Not Found" }) 40000) false afterA).2.calls
      = [.addressToTokenId "0xB", .tokenURI ⟨9, true⟩,
          .fetch "https://gateway.pinata.cloud/ipfs/def"] ∧
    (check (constEnv (some nineContract) (some "0xB")
        (.ok { ok := false, json := .error "Not Found" }) 40000) false afterA).2.state.hasNFT
      = true ∧
    (check (constEnv (some nineContract) (some "0xB")
        (.ok { ok := false, json := .error "Not Found" }) 40000) false
      afterA).2.state.userNFT.map NFT.owner = some "0xA" ∧
    (check (constEnv (some nineContract) (some "0xB")
        (.ok { ok := false, json := .error "Not Found" }) 40000) false
      afterA).2.state.userNFT.map NFT.id = some 7 := by
  decide

end UseNft
